import Mathlib

/-!
Verification of the classification, filtering and aggregation logic of
`app.py` (TeMapeo viewer v7, a Streamlit dashboard for per-tree
vegetation-index data).  Python functions are shallowly embedded as Lean
definitions: strings stay strings (Python `str.lower` is modelled for the
ASCII inputs that occur as class labels), Python floats appearing in exact
zero-divisor questions are modelled as rationals extended with IEEE special
values, dataframes are lists of rows plus a list of present column names.
-/

/-- Lowercases an ASCII character, as Python `str.lower` does on the ASCII
class labels handled by the dashboard. -/
def a_minuscula (c : Char) : Char :=
  if 'A' ≤ c ∧ c ≤ 'Z' then Char.ofNat (c.toNat + 32) else c

/-- Models Python `s.lower()` on ASCII strings. -/
def minusculas (s : String) : String :=
  ⟨s.data.map a_minuscula⟩

/-- Models the Python substring test `sub in s`: `sub` occurs contiguously
inside `s`. -/
def en (sub s : String) : Bool :=
  decide (sub.data <:+: s.data)

/-- Embeds the dict `COLORES_CLASE` of `app.py` (lines 94-101): hex color per
canonical class label. -/
def COLORES_CLASE : List (String × String) :=
  [("Muy bajo", "#d7191c"),
   ("Bajo", "#fdae61"),
   ("Medio", "#ffffbf"),
   ("Medio-alto", "#a6d96a"),
   ("Alto", "#1a9641"),
   ("Sin dato", "#969696")]

/-- Lookup in `COLORES_CLASE`, as `COLORES_CLASE.get(clase, '#969696')`
(line 675).  The bracket lookups `COLORES_CLASE['X']` in `asignar_color_hex`
use only keys present in the dict, where this lookup agrees with them. -/
def colorDe (clase : String) : String :=
  (COLORES_CLASE.lookup clase).getD "#969696"

/-- Embeds `asignar_color_hex` (`app.py` lines 337-350): assigns a hex color
to a class-label string by lowercased substring tests, in the source's
branch order. -/
def asignar_color_hex (clase : String) : String :=
  let clase_str := minusculas clase
  if en "muy bajo" clase_str then colorDe "Muy bajo"
  else if en "bajo" clase_str && !(en "muy" clase_str) && !(en "medio" clase_str) then
    colorDe "Bajo"
  else if en "medio-alto" clase_str || en "medio alto" clase_str then colorDe "Medio-alto"
  else if en "medio" clase_str then colorDe "Medio"
  else if en "alto" clase_str then colorDe "Alto"
  else colorDe "Sin dato"

/-- Embeds `clasificar_punto` (`app.py` lines 652-664, repeated verbatim at
820-832): canonicalizes a class-label string by lowercased substring tests,
in the source's branch order. -/
def clasificar_punto (clase_str : String) : String :=
  let clase_lower := minusculas clase_str
  if en "muy bajo" clase_lower then "Muy bajo"
  else if en "medio-alto" clase_lower || en "medio alto" clase_lower then "Medio-alto"
  else if en "medio" clase_lower then "Medio"
  else if en "bajo" clase_lower then "Bajo"
  else if en "alto" clase_lower then "Alto"
  else "Sin dato"

/-- The canonical 5-class label set of this version, severity to health. -/
def etiquetas_canonicas : List String :=
  ["Muy bajo", "Bajo", "Medio", "Medio-alto", "Alto"]

-- Substring containment is transitive.
theorem en_trans {a b c : String} (h1 : en a b = true) (h2 : en b c = true) :
    en a c = true := by
  simp only [en, decide_eq_true_eq] at h1 h2 ⊢
  exact h1.trans h2

/-- C1: the claim asserts a numeric-code path: codes 1..5 map to the ordinal
labels.  `clasificar_punto` has no numeric path: the digit strings for codes
1, 3 and 5 match no label substring and fall through to "Sin dato". -/
theorem clasificar_punto_codigo_numerico_contra :
    clasificar_punto "1" ≠ "Muy bajo" ∧ clasificar_punto "3" ≠ "Medio" ∧
    clasificar_punto "5" ≠ "Alto" ∧ clasificar_punto "3" = "Sin dato" := by
  decide

/-- C1 (amended): there is no numeric path in this version; every single-digit
input — the valid codes 1..5, code 0 and codes above 5 alike — matches none of
the label substrings and yields the "Sin dato" sentinel. -/
theorem clasificar_punto_codigos_sin_dato (c : String)
    (h : c ∈ ["0", "1", "2", "3", "4", "5", "6", "7", "8", "9"]) :
    clasificar_punto c = "Sin dato" := by
  fin_cases h <;> decide

/-- C1 witness: the theorem applied at the concrete code "3". -/
theorem clasificar_punto_codigos_sin_dato_witness :
    "3" ∈ ["0", "1", "2", "3", "4", "5", "6", "7", "8", "9"] ∧
    clasificar_punto "3" = "Sin dato" :=
  ⟨by decide, clasificar_punto_codigos_sin_dato "3" (by decide)⟩

/-- C2: the claim includes the English variant "Medium-High" among the inputs
canonicalized to "Medio-alto"; `clasificar_punto` tests only Spanish
substrings, so "Medium-High" yields "Sin dato". -/
theorem clasificar_punto_medium_high_contra :
    clasificar_punto "Medium-High" ≠ "Medio-alto" ∧
    clasificar_punto "Medium-High" = "Sin dato" := by
  decide

/-- C2 (amended): the Spanish variants of the Medium-High label — hyphenated,
spaced, any letter case — all canonicalize to "Medio-alto" (never to "Medio"
or "Alto"); the English variant "Medium-High" is not recognized and yields
"Sin dato". -/
theorem clasificar_punto_medio_alto_variantes :
    clasificar_punto "Medio-alto" = "Medio-alto" ∧
    clasificar_punto "Medio alto" = "Medio-alto" ∧
    clasificar_punto "MEDIO-ALTO" = "Medio-alto" ∧
    clasificar_punto "MEDIO ALTO" = "Medio-alto" ∧
    clasificar_punto "medio alto" = "Medio-alto" ∧
    clasificar_punto "Medium-High" = "Sin dato" := by
  decide

/-- Embeds the counter `n_muy_bajo` of `generar_analisis_automatico`
(`app.py` line 385): rows whose lowercased label contains "muy bajo". -/
def n_muy_bajo (clases : List String) : Nat :=
  clases.countP (fun x => en "muy bajo" (minusculas x))

/-- Embeds `n_bajo` (line 386): contains "bajo" but not "muy". -/
def n_bajo (clases : List String) : Nat :=
  clases.countP (fun x => en "bajo" (minusculas x) && !(en "muy" (minusculas x)))

/-- Embeds `n_medio` (line 387): contains "medio" but not "alto". -/
def n_medio (clases : List String) : Nat :=
  clases.countP (fun x => en "medio" (minusculas x) && !(en "alto" (minusculas x)))

/-- Embeds `n_medio_alto` (line 388): contains "medio-alto" or "medio alto". -/
def n_medio_alto (clases : List String) : Nat :=
  clases.countP (fun x => en "medio-alto" (minusculas x) || en "medio alto" (minusculas x))

/-- Embeds `n_alto` (line 389): contains "alto" but not "medio". -/
def n_alto (clases : List String) : Nat :=
  clases.countP (fun x => en "alto" (minusculas x) && !(en "medio" (minusculas x)))

/-- Embeds `pct_sanos` (line 391): percentage of rows counted by
`n_alto + n_medio_alto`, 0 on an empty table. -/
def pct_sanos (clases : List String) : ℚ :=
  if 0 < clases.length then
    ((n_alto clases : ℚ) + (n_medio_alto clases : ℚ)) / (clases.length : ℚ) * 100
  else 0

/-- Embeds `pct_problematicos` (line 392): percentage of rows counted by
`n_muy_bajo + n_bajo`, 0 on an empty table. -/
def pct_problematicos (clases : List String) : ℚ :=
  if 0 < clases.length then
    ((n_muy_bajo clases : ℚ) + (n_bajo clases : ℚ)) / (clases.length : ℚ) * 100
  else 0

/-- Embeds the middle-band metric `n_medio/n_total*100` shown at line 447.
The source computes it unguarded; the theorems below only evaluate it on
nonempty tables, where the rational division matches the Python float one. -/
def pct_medio_metrica (clases : List String) : ℚ :=
  (n_medio clases : ℚ) / (clases.length : ℚ) * 100

-- Counting two pointwise-exclusive predicates separately is counting their
-- disjunction.
theorem countP_add_disjunto {p q : String → Bool}
    (h : ∀ x, ¬(p x = true ∧ q x = true)) :
    ∀ l : List String, l.countP p + l.countP q = l.countP (fun x => p x || q x)
  | [] => rfl
  | a :: t => by
    have ht := countP_add_disjunto h t
    simp only [List.countP_cons]
    cases hp : p a <;> cases hq : q a <;> simp <;> try omega
    exact absurd ⟨hp, hq⟩ (h a)

-- On canonical labels each substring counter counts exact equality with its
-- own label.
theorem n_alto_canonico {l : List String} (h : ∀ x ∈ l, x ∈ etiquetas_canonicas) :
    n_alto l = l.countP (fun x => x == "Alto") := by
  refine List.countP_congr ?_
  intro x hx
  have hx5 := h x hx
  fin_cases hx5 <;> decide

theorem n_medio_alto_canonico {l : List String}
    (h : ∀ x ∈ l, x ∈ etiquetas_canonicas) :
    n_medio_alto l = l.countP (fun x => x == "Medio-alto") := by
  refine List.countP_congr ?_
  intro x hx
  have hx5 := h x hx
  fin_cases hx5 <;> decide

theorem n_medio_canonico {l : List String} (h : ∀ x ∈ l, x ∈ etiquetas_canonicas) :
    n_medio l = l.countP (fun x => x == "Medio") := by
  refine List.countP_congr ?_
  intro x hx
  have hx5 := h x hx
  fin_cases hx5 <;> decide

theorem n_bajo_canonico {l : List String} (h : ∀ x ∈ l, x ∈ etiquetas_canonicas) :
    n_bajo l = l.countP (fun x => x == "Bajo") := by
  refine List.countP_congr ?_
  intro x hx
  have hx5 := h x hx
  fin_cases hx5 <;> decide

theorem n_muy_bajo_canonico {l : List String}
    (h : ∀ x ∈ l, x ∈ etiquetas_canonicas) :
    n_muy_bajo l = l.countP (fun x => x == "Muy bajo") := by
  refine List.countP_congr ?_
  intro x hx
  have hx5 := h x hx
  fin_cases hx5 <;> decide

-- The five equality counts partition a canonical-label list.
theorem suma_contadores_canonicos :
    ∀ l : List String, (∀ x ∈ l, x ∈ etiquetas_canonicas) →
      l.countP (fun x => x == "Muy bajo") + l.countP (fun x => x == "Bajo") +
      l.countP (fun x => x == "Medio") + l.countP (fun x => x == "Medio-alto") +
      l.countP (fun x => x == "Alto") = l.length := by
  intro l
  induction l with
  | nil => intro _; rfl
  | cons a t ih =>
    intro h
    have ha : a ∈ etiquetas_canonicas := h a (by simp)
    have ihs := ih (fun x hx => h x (by simp [hx]))
    simp only [List.countP_cons, List.length_cons]
    fin_cases ha <;> simp <;> omega

/-- C3: on a nonempty table whose class labels are all canonical 5-class
labels, the healthy percentage is the share of rows labelled "Alto" or
"Medio-alto" and the critical percentage is the share labelled "Muy bajo" or
"Bajo". -/
theorem pct_sanos_y_criticos (clases : List String) (hne : clases ≠ [])
    (hcan : ∀ x ∈ clases, x ∈ etiquetas_canonicas) :
    pct_sanos clases =
      (clases.countP (fun x => x == "Alto" || x == "Medio-alto") : ℚ) /
        (clases.length : ℚ) * 100 ∧
    pct_problematicos clases =
      (clases.countP (fun x => x == "Muy bajo" || x == "Bajo") : ℚ) /
        (clases.length : ℚ) * 100 := by
  have hlen : 0 < clases.length := List.length_pos.mpr hne
  have hdis1 : ∀ x : String, ¬((x == "Alto") = true ∧ (x == "Medio-alto") = true) := by
    intro x ⟨h1, h2⟩
    exact absurd ((eq_of_beq h1).symm.trans (eq_of_beq h2)) (by decide)
  have hdis2 : ∀ x : String, ¬((x == "Muy bajo") = true ∧ (x == "Bajo") = true) := by
    intro x ⟨h1, h2⟩
    exact absurd ((eq_of_beq h1).symm.trans (eq_of_beq h2)) (by decide)
  constructor
  · rw [pct_sanos, if_pos hlen, n_alto_canonico hcan, n_medio_alto_canonico hcan,
      ← Nat.cast_add, countP_add_disjunto hdis1]
  · rw [pct_problematicos, if_pos hlen, n_muy_bajo_canonico hcan,
      n_bajo_canonico hcan, ← Nat.cast_add, countP_add_disjunto hdis2]

/-- C3 witness: the theorem applied to the concrete table with labels
["Alto", "Muy bajo", "Medio"]. -/
theorem pct_sanos_y_criticos_witness :
    (["Alto", "Muy bajo", "Medio"] : List String) ≠ [] ∧
    (pct_sanos ["Alto", "Muy bajo", "Medio"] =
      ((["Alto", "Muy bajo", "Medio"].countP
          (fun x => x == "Alto" || x == "Medio-alto") : ℚ)) / 3 * 100 ∧
     pct_problematicos ["Alto", "Muy bajo", "Medio"] =
      ((["Alto", "Muy bajo", "Medio"].countP
          (fun x => x == "Muy bajo" || x == "Bajo") : ℚ)) / 3 * 100) :=
  ⟨by decide, pct_sanos_y_criticos _ (by decide) (by decide)⟩

/-- C8: on a nonempty table whose class labels are all canonical, the healthy,
middle and critical percentages partition the table: they sum to exactly 100
(exact rational arithmetic; the source computes the same quantities in
floating point). -/
theorem pct_particion (clases : List String) (hne : clases ≠ [])
    (hcan : ∀ x ∈ clases, x ∈ etiquetas_canonicas) :
    pct_sanos clases + pct_medio_metrica clases + pct_problematicos clases = 100 := by
  have hlen : 0 < clases.length := List.length_pos.mpr hne
  have hsum := suma_contadores_canonicos clases hcan
  have hq : ((clases.countP (fun x => x == "Muy bajo") : ℚ)) +
      (clases.countP (fun x => x == "Bajo") : ℚ) +
      (clases.countP (fun x => x == "Medio") : ℚ) +
      (clases.countP (fun x => x == "Medio-alto") : ℚ) +
      (clases.countP (fun x => x == "Alto") : ℚ) = (clases.length : ℚ) := by
    exact_mod_cast hsum
  have hn : (clases.length : ℚ) ≠ 0 := by
    exact_mod_cast Nat.pos_iff_ne_zero.mp hlen
  rw [pct_sanos, if_pos hlen, pct_problematicos, if_pos hlen, pct_medio_metrica,
    n_alto_canonico hcan, n_medio_alto_canonico hcan, n_medio_canonico hcan,
    n_muy_bajo_canonico hcan, n_bajo_canonico hcan]
  field_simp
  linarith

/-- C8 witness: the theorem applied to a concrete table holding one row of
each canonical class. -/
theorem pct_particion_witness :
    (["Muy bajo", "Bajo", "Medio", "Medio-alto", "Alto"] : List String) ≠ [] ∧
    pct_sanos ["Muy bajo", "Bajo", "Medio", "Medio-alto", "Alto"] +
      pct_medio_metrica ["Muy bajo", "Bajo", "Medio", "Medio-alto", "Alto"] +
      pct_problematicos ["Muy bajo", "Bajo", "Medio", "Medio-alto", "Alto"] = 100 :=
  ⟨by decide, pct_particion _ (by decide) (by decide)⟩

/-- Embeds the guarded flight-to-flight delta percentage of
`generar_analisis_comparativo` (`app.py` line 507):
`(cambio / media1 * 100) if media1 != 0 else 0`. -/
def cambio_pct_vuelos (media1 media2 : ℚ) : ℚ :=
  if media1 ≠ 0 then (media2 - media1) / media1 * 100 else 0

/-- Embeds the trend banding of `generar_analisis_comparativo`
(`app.py` lines 521-540): an if/elif chain of strict comparisons on the
delta percentage. -/
def determinar_tendencia (cambio_pct : ℚ) : String :=
  if 5 < cambio_pct then "MEJORA SIGNIFICATIVA"
  else if 1 < cambio_pct then "LEVE MEJORA"
  else if -1 < cambio_pct then "ESTABLE"
  else if -5 < cambio_pct then "LEVE DETERIORO"
  else "DETERIORO SIGNIFICATIVO"

/-- C4: the claim asserts both boundaries nearer zero are inclusive toward
"Stable" — exactly -1.0 stable, exactly -5.0 a slight band.  The chain of
strict `>` tests sends every boundary value on the negative side to the more
severe band: -1.0 is a slight decline and -5.0 a significant decline. -/
theorem determinar_tendencia_frontera_contra :
    determinar_tendencia (-1) = "LEVE DETERIORO" ∧
    determinar_tendencia (-5) = "DETERIORO SIGNIFICATIVO" := by
  constructor <;> · rw [determinar_tendencia]; norm_num

/-- C4 (amended): `determinar_tendencia` bands the delta percentage into
exactly 5 bands whose lower boundary is always exclusive: above +5
significant improvement; +1 exclusive to +5 inclusive slight improvement;
-1 exclusive to +1 inclusive stable (so exactly +1.0 is stable); -5
exclusive to -1 inclusive slight decline (so exactly -1.0 is a slight
decline, not stable); -5 and below significant decline (so exactly -5.0 is
a significant decline). -/
theorem determinar_tendencia_bandas (x : ℚ) :
    (5 < x → determinar_tendencia x = "MEJORA SIGNIFICATIVA") ∧
    (1 < x → x ≤ 5 → determinar_tendencia x = "LEVE MEJORA") ∧
    (-1 < x → x ≤ 1 → determinar_tendencia x = "ESTABLE") ∧
    (-5 < x → x ≤ -1 → determinar_tendencia x = "LEVE DETERIORO") ∧
    (x ≤ -5 → determinar_tendencia x = "DETERIORO SIGNIFICATIVO") := by
  rw [determinar_tendencia]
  refine ⟨?_, ?_, ?_, ?_, ?_⟩ <;> intros <;> split_ifs <;> first | rfl | linarith

/-- C4 witness: the theorem applied at the boundary value +1, which lands in
the stable band. -/
theorem determinar_tendencia_bandas_witness :
    (-1 : ℚ) < 1 ∧ (1 : ℚ) ≤ 1 ∧ determinar_tendencia 1 = "ESTABLE" :=
  ⟨by norm_num, by norm_num,
    (determinar_tendencia_bandas 1).2.2.1 (by norm_num) (by norm_num)⟩

/-- A Python/numpy float outcome, restricted to what the exact zero-divisor
questions below need: a finite rational, the two infinities, or NaN. -/
inductive FloatVal where
  | fin : ℚ → FloatVal
  | inf : FloatVal
  | ninf : FloatVal
  | nan : FloatVal
deriving DecidableEq, Repr

/-- Models numpy float division (IEEE 754): finite quotient when the divisor
is nonzero, otherwise a signed infinity or NaN depending on the dividend —
a warning, never a raised exception. -/
def fdiv (a b : ℚ) : FloatVal :=
  if b ≠ 0 then .fin (a / b)
  else if 0 < a then .inf
  else if a < 0 then .ninf
  else .nan

/-- Multiplication of a float outcome by the positive constant 100. -/
def fmul100 : FloatVal → FloatVal
  | .fin q => .fin (q * 100)
  | .inf => .inf
  | .ninf => .ninf
  | .nan => .nan

/-- Embeds the per-block deviation percentage of `generar_analisis_automatico`
(`app.py` line 410): `(row['mean'] - media_general) / media_general * 100`,
an unguarded numpy float division (the same shape appears at line 1460 in
`tab_comparacion`).  The final round-to-1-decimal display step is not
modelled; the claims settled here concern only the zero-mean guard. -/
def diferencia_cuartel_pct (media_cuartel media_general : ℚ) : FloatVal :=
  fmul100 (fdiv (media_cuartel - media_general) media_general)

/-- C5: the claim asserts a zero overall mean is reported as a defined "N/A"
result.  The division is unguarded: at zero overall mean the outcome is a
non-finite float that varies with the group mean's sign — not one defined
not-applicable value, and not an "N/A" report. -/
theorem diferencia_cuartel_pct_sin_na :
    diferencia_cuartel_pct 1 0 = FloatVal.inf ∧
    diferencia_cuartel_pct (-1) 0 = FloatVal.ninf ∧
    diferencia_cuartel_pct 0 0 = FloatVal.nan ∧
    diferencia_cuartel_pct 1 0 ≠ diferencia_cuartel_pct 0 0 := by
  have hd : FloatVal.inf ≠ FloatVal.nan := by decide
  refine ⟨?_, ?_, ?_, ?_⟩ <;> norm_num [diferencia_cuartel_pct, fdiv, fmul100, hd]

/-- C5 (amended): each group's deviation percentage is computed by an
unguarded float division; with a nonzero overall mean it is the finite
percentage, and with a zero overall mean it degrades to inf, -inf or NaN by
the sign of the group mean — no exception propagates, but no "N/A" is
reported either. -/
theorem diferencia_cuartel_pct_casos (m g : ℚ) :
    (g ≠ 0 → diferencia_cuartel_pct m g = FloatVal.fin ((m - g) / g * 100)) ∧
    (g = 0 → 0 < m → diferencia_cuartel_pct m g = FloatVal.inf) ∧
    (g = 0 → m < 0 → diferencia_cuartel_pct m g = FloatVal.ninf) ∧
    (g = 0 → m = 0 → diferencia_cuartel_pct m g = FloatVal.nan) := by
  refine ⟨?_, ?_, ?_, ?_⟩
  · intro hg
    simp [diferencia_cuartel_pct, fdiv, fmul100, hg]
  · intro hg hm
    subst hg
    simp [diferencia_cuartel_pct, fdiv, fmul100, hm]
  · intro hg hm
    subst hg
    simp [diferencia_cuartel_pct, fdiv, fmul100, hm, hm.not_lt]
  · intro hg hm
    subst hg
    subst hm
    simp [diferencia_cuartel_pct, fdiv, fmul100]

/-- C5 witness: the theorem applied at group mean 2 and overall mean 1,
yielding the finite percentage +100%. -/
theorem diferencia_cuartel_pct_casos_witness :
    (1 : ℚ) ≠ 0 ∧ diferencia_cuartel_pct 2 1 = FloatVal.fin ((2 - 1) / 1 * 100) :=
  ⟨by norm_num, (diferencia_cuartel_pct_casos 2 1).1 (by norm_num)⟩

/-- A point-table row, carrying the categorical columns the cascading
filters of `crear_sidebar` read.  A row always carries a value for each
field; whether the dataframe actually has a column is recorded separately
in `DataFrame.columnas`, and a filter stage consults a field only when its
column is present. -/
structure Fila where
  fecha_vuelo : String
  especie : String
  variedad : String
  cuartel : String
deriving DecidableEq, Repr

/-- A dataframe: the list of present column names and the rows. -/
structure DataFrame where
  columnas : List String
  filas : List Fila
deriving DecidableEq, Repr

/-- Models pandas `df.copy()`: a fresh frame with the same contents. -/
def copiar (df : DataFrame) : DataFrame := df

/-- Embeds filter stage 1 of `crear_sidebar` (`app.py` lines 1556-1560):
when the `fecha_vuelo` column exists and the selection is not the "Todas"
sentinel, keep the rows whose flight date (coerced to string, which the
`fecha_vuelo` field already is) equals the selection; otherwise pass all
rows through. -/
def etapa_fecha (columnas : List String) (fechas_sel : String)
    (filas : List Fila) : List Fila :=
  if "fecha_vuelo" ∈ columnas ∧ fechas_sel ≠ "Todas" then
    List.filter (fun r => r.fecha_vuelo == fechas_sel) filas
  else filas

/-- Embeds filter stage 2 (lines 1562-1567): species equality, "Todas" is a
no-op, skipped when the `Especie` column is absent. -/
def etapa_especie (columnas : List String) (especie_sel : String)
    (filas : List Fila) : List Fila :=
  if "Especie" ∈ columnas ∧ especie_sel ≠ "Todas" then
    List.filter (fun r => r.especie == especie_sel) filas
  else filas

/-- Embeds filter stage 3 (lines 1569-1574): variety equality, "Todas" is a
no-op, skipped when the `Variedad` column is absent. -/
def etapa_variedad (columnas : List String) (variedad_sel : String)
    (filas : List Fila) : List Fila :=
  if "Variedad" ∈ columnas ∧ variedad_sel ≠ "Todas" then
    List.filter (fun r => r.variedad == variedad_sel) filas
  else filas

/-- Embeds filter stage 4 (lines 1576-1586): multi-valued block membership,
the empty selection is a no-op, skipped when the `Cuartel` column is
absent. -/
def etapa_cuarteles (columnas : List String) (cuarteles_sel : List String)
    (filas : List Fila) : List Fila :=
  if "Cuartel" ∈ columnas ∧ cuarteles_sel ≠ [] then
    List.filter (fun r => cuarteles_sel.contains r.cuartel) filas
  else filas

/-- Embeds the row-set result of `crear_sidebar` (lines 1543-1586): start
from `df.copy()` and apply the four cascading stages in the documented
order date → species → variety → blocks. -/
def crear_sidebar_filtrado (df : DataFrame)
    (fechas_sel especie_sel variedad_sel : String)
    (cuarteles_sel : List String) : List Fila :=
  let df_filtrado := copiar df
  etapa_cuarteles df.columnas cuarteles_sel
    (etapa_variedad df.columnas variedad_sel
      (etapa_especie df.columnas especie_sel
        (etapa_fecha df.columnas fechas_sel df_filtrado.filas)))

/-- Mirrors the spec sentence "the final filtered set is the same regardless
of UI order": the same four constraints applied in the reversed order
blocks → variety → species → date. -/
def filtrado_orden_invertido (df : DataFrame)
    (fechas_sel especie_sel variedad_sel : String)
    (cuarteles_sel : List String) : List Fila :=
  let df_filtrado := copiar df
  etapa_fecha df.columnas fechas_sel
    (etapa_especie df.columnas especie_sel
      (etapa_variedad df.columnas variedad_sel
        (etapa_cuarteles df.columnas cuarteles_sel df_filtrado.filas)))

-- Two conditionally applied row filters commute.
theorem filtro_si_comm (c₁ c₂ : Prop) [Decidable c₁] [Decidable c₂]
    (p q : Fila → Bool) (l : List Fila) :
    (if c₂ then List.filter q (if c₁ then List.filter p l else l)
     else (if c₁ then List.filter p l else l)) =
    (if c₁ then List.filter p (if c₂ then List.filter q l else l)
     else (if c₂ then List.filter q l else l)) := by
  split_ifs <;> first | rfl | exact List.filter_comm _ _ _

theorem conm_especie_fecha (columnas : List String) (es fs : String)
    (l : List Fila) :
    etapa_especie columnas es (etapa_fecha columnas fs l) =
    etapa_fecha columnas fs (etapa_especie columnas es l) := by
  unfold etapa_especie etapa_fecha
  exact filtro_si_comm _ _ _ _ l

theorem conm_variedad_fecha (columnas : List String) (vs fs : String)
    (l : List Fila) :
    etapa_variedad columnas vs (etapa_fecha columnas fs l) =
    etapa_fecha columnas fs (etapa_variedad columnas vs l) := by
  unfold etapa_variedad etapa_fecha
  exact filtro_si_comm _ _ _ _ l

theorem conm_cuarteles_fecha (columnas : List String) (cs : List String)
    (fs : String) (l : List Fila) :
    etapa_cuarteles columnas cs (etapa_fecha columnas fs l) =
    etapa_fecha columnas fs (etapa_cuarteles columnas cs l) := by
  unfold etapa_cuarteles etapa_fecha
  exact filtro_si_comm _ _ _ _ l

theorem conm_variedad_especie (columnas : List String) (vs es : String)
    (l : List Fila) :
    etapa_variedad columnas vs (etapa_especie columnas es l) =
    etapa_especie columnas es (etapa_variedad columnas vs l) := by
  unfold etapa_variedad etapa_especie
  exact filtro_si_comm _ _ _ _ l

theorem conm_cuarteles_especie (columnas : List String) (cs : List String)
    (es : String) (l : List Fila) :
    etapa_cuarteles columnas cs (etapa_especie columnas es l) =
    etapa_especie columnas es (etapa_cuarteles columnas cs l) := by
  unfold etapa_cuarteles etapa_especie
  exact filtro_si_comm _ _ _ _ l

theorem conm_cuarteles_variedad (columnas : List String) (cs : List String)
    (vs : String) (l : List Fila) :
    etapa_cuarteles columnas cs (etapa_variedad columnas vs l) =
    etapa_variedad columnas vs (etapa_cuarteles columnas cs l) := by
  unfold etapa_cuarteles etapa_variedad
  exact filtro_si_comm _ _ _ _ l

/-- C6: for every base table and every combination of selections, applying
the equality/membership constraints in the documented stage order yields
the same final row set as applying them in the fully reversed order —
stage order affects only the offered options, not the included rows. -/
theorem crear_sidebar_filtrado_conmuta (df : DataFrame)
    (fechas_sel especie_sel variedad_sel : String)
    (cuarteles_sel : List String) :
    crear_sidebar_filtrado df fechas_sel especie_sel variedad_sel cuarteles_sel =
    filtrado_orden_invertido df fechas_sel especie_sel variedad_sel cuarteles_sel := by
  show etapa_cuarteles df.columnas cuarteles_sel
      (etapa_variedad df.columnas variedad_sel
        (etapa_especie df.columnas especie_sel
          (etapa_fecha df.columnas fechas_sel df.filas))) =
    etapa_fecha df.columnas fechas_sel
      (etapa_especie df.columnas especie_sel
        (etapa_variedad df.columnas variedad_sel
          (etapa_cuarteles df.columnas cuarteles_sel df.filas)))
  rw [conm_especie_fecha, conm_variedad_fecha, conm_cuarteles_fecha,
    conm_cuarteles_variedad, conm_cuarteles_especie, conm_variedad_especie]

/-- C7: a filter stage whose column is absent from the dataset — here the
`Variedad` stage on a table with no `Variedad` column — is skipped entirely:
it excludes no rows (and, being a plain pass-through, raises nothing). -/
theorem etapa_variedad_columna_ausente (columnas : List String)
    (variedad_sel : String) (filas : List Fila)
    (h : "Variedad" ∉ columnas) :
    etapa_variedad columnas variedad_sel filas = filas := by
  unfold etapa_variedad
  rw [if_neg]
  intro hc
  exact h hc.1

/-- C7 witness: the theorem applied to a concrete table lacking the
`Variedad` column. -/
theorem etapa_variedad_columna_ausente_witness :
    "Variedad" ∉ ["fecha_vuelo", "Especie", "Cuartel"] ∧
    etapa_variedad ["fecha_vuelo", "Especie", "Cuartel"] "Lapins"
      [⟨"2023-10-15", "Cerezo", "Lapins", "C1"⟩] =
      [⟨"2023-10-15", "Cerezo", "Lapins", "C1"⟩] :=
  ⟨by decide, etapa_variedad_columna_ausente _ _ _ (by decide)⟩

/-- Session state: the base table loaded once by `cargar_datos` and held in
the Streamlit cache. -/
structure Sesion where
  base : DataFrame
deriving DecidableEq, Repr

/-- One user interaction (`main` calling `crear_sidebar`): the sidebar
starts from `df.copy()` (line 1545) and narrows that copy stage by stage by
rebinding `df_filtrado`; every later column assignment in the source
(`df_plot['color'] = ...`, `df_plot['clase_simple'] = ...`) is made on a
further `df.copy()`.  No statement writes into the cached base frame, so
the interaction returns the filtered rows together with the session whose
base is untouched. -/
def interaccion (s : Sesion) (fechas_sel especie_sel variedad_sel : String)
    (cuarteles_sel : List String) : List Fila × Sesion :=
  let df_filtrado :=
    crear_sidebar_filtrado s.base fechas_sel especie_sel variedad_sel cuarteles_sel
  (df_filtrado, s)

/-- A sequence of interactions (filter selections), applied one at a time,
threading the session state through each. -/
def aplicar_interacciones :
    Sesion → List (String × String × String × List String) → Sesion
  | s, [] => s
  | s, (fs, es, vs, cs) :: resto =>
    aplicar_interacciones (interaccion s fs es vs cs).2 resto

/-- C9: after any sequence of filter selections, the cached base table is
unchanged — rows and columns alike — because every interaction works on its
own filtered copy. -/
theorem base_inmutable (s : Sesion)
    (seq : List (String × String × String × List String)) :
    (aplicar_interacciones s seq).base = s.base := by
  induction seq generalizing s with
  | nil => rfl
  | cons i resto ih =>
    obtain ⟨fs, es, vs, cs⟩ := i
    exact ih _

-- Containment of a compound pattern forces containment of its parts.
theorem en_muy_de_muy_bajo {s : String} (h : en "muy bajo" s = true) :
    en "muy" s = true :=
  en_trans (by decide) h

theorem en_bajo_de_muy_bajo {s : String} (h : en "muy bajo" s = true) :
    en "bajo" s = true :=
  en_trans (by decide) h

theorem en_medio_de_guion {s : String} (h : en "medio-alto" s = true) :
    en "medio" s = true :=
  en_trans (by decide) h

theorem en_medio_de_espacio {s : String} (h : en "medio alto" s = true) :
    en "medio" s = true :=
  en_trans (by decide) h

/-- C10: the claim asserts the color assigned by `asignar_color_hex` always
equals `COLORES_CLASE` applied to the class chosen by `clasificar_punto`.
They disagree on "Muy-bajo" (hyphenated very-low variant): the color
function's guarded "bajo" branch rejects it (it contains "muy") and falls
through to the "Sin dato" gray, while the legend classifier returns "Bajo",
whose color is orange. -/
theorem asignar_color_clasificar_contra :
    asignar_color_hex "Muy-bajo" ≠ colorDe (clasificar_punto "Muy-bajo") ∧
    asignar_color_hex "Muy-bajo" = "#969696" ∧
    clasificar_punto "Muy-bajo" = "Bajo" ∧
    colorDe "Bajo" = "#fdae61" := by
  decide

/-- C10 (amended): `asignar_color_hex` and `COLORES_CLASE` composed with
`clasificar_punto` agree on every input string except those whose lowercased
form contains both "bajo" and "muy" without containing the exact substring
"muy bajo" and without containing "medio" — on every other string, in
particular on all canonical and realistic variant labels, the two substring
rule orders pick the same class. -/
theorem asignar_color_coincide (s : String)
    (h : ¬(en "bajo" (minusculas s) = true ∧ en "muy" (minusculas s) = true ∧
        en "muy bajo" (minusculas s) = false ∧
        en "medio" (minusculas s) = false)) :
    asignar_color_hex s = colorDe (clasificar_punto s) := by
  simp only [asignar_color_hex, clasificar_punto]
  by_cases hmb : en "muy bajo" (minusculas s) = true
  · simp [hmb]
  · have hmb0 : en "muy bajo" (minusculas s) = false := by
      rcases Bool.eq_false_or_eq_true (en "muy bajo" (minusculas s)) with h1 | h0
      · exact absurd h1 hmb
      · exact h0
    by_cases hma : (en "medio-alto" (minusculas s) ||
        en "medio alto" (minusculas s)) = true
    · have hme : en "medio" (minusculas s) = true := by
        rcases Bool.or_eq_true_iff.mp hma with h1 | h1
        · exact en_medio_de_guion h1
        · exact en_medio_de_espacio h1
      simp [hmb, hma, hme]
    · by_cases hme : en "medio" (minusculas s) = true
      · simp [hmb, hma, hme]
      · have hme0 : en "medio" (minusculas s) = false := by
          rcases Bool.eq_false_or_eq_true (en "medio" (minusculas s)) with h1 | h0
          · exact absurd h1 hme
          · exact h0
        by_cases hb : en "bajo" (minusculas s) = true
        · have hmu : en "muy" (minusculas s) = false := by
            rcases Bool.eq_false_or_eq_true (en "muy" (minusculas s)) with h1 | h0
            · exact absurd ⟨hb, h1, hmb0, hme0⟩ h
            · exact h0
          simp [hmb, hma, hme, hb, hmu]
        · by_cases ha : en "alto" (minusculas s) = true
          · simp [hmb, hma, hme, hb, ha]
          · simp [hmb, hma, hme, hb, ha]

/-- C10 witness: the theorem applied at the canonical label "Medio-alto". -/
theorem asignar_color_coincide_witness :
    ¬(en "bajo" (minusculas "Medio-alto") = true ∧
      en "muy" (minusculas "Medio-alto") = true ∧
      en "muy bajo" (minusculas "Medio-alto") = false ∧
      en "medio" (minusculas "Medio-alto") = false) ∧
    asignar_color_hex "Medio-alto" = colorDe (clasificar_punto "Medio-alto") :=
  ⟨by decide, asignar_color_coincide "Medio-alto" (by decide)⟩
